import Mathlib

/-!
Verification development for the wikipedia-rs async client
(`src/async/wikipedia.rs`, `src/async/mod.rs`).

The client state, URL templating, parameter builders, validation and JSON
extraction logic are embedded shallowly.  Rust `String`s used by the URL
templater are modelled as `List Char` (the marker token is ASCII, so the
byte-index arithmetic of `str::find` / slicing coincides with character
indices on valid UTF-8 input); other strings stay Lean `String`s.
The transport capability (`AsyncHttpClient::get`) and JSON parsing
(`serde_json::from_str`) are external collaborators and are passed in as
function parameters; each façade operation returns, next to its result,
the list of transport invocations it performed (base URL and parameter
list), making "the transport is never invoked" and "exactly these
parameters are passed" statable.
-/

namespace Wiki

/-- Strings of the URL templater, as character lists. -/
abbrev Str := List Char

/-- Modelled from the spec: the error taxonomy of the crate root (`Error` in
`lib.rs`, which is not part of the sources at hand).  `InvalidParameter` and
`JSONPathError` are referenced directly by `src/async/wikipedia.rs`
(`Error::InvalidParameter`, `Error::JSONPathError`); the spec calls the
latter `MissingPathError`.  `DecodeError` is the error a failed
`serde_json::from_str` converts into; `NetworkError` stands for
transport-level failures. -/
inductive Error where
  | InvalidParameter (name : String)
  | NetworkError
  | DecodeError
  | JSONPathError
  deriving DecidableEq, Repr

/-- A JSON document (`serde_json::Value`): null, bool, number, string,
array, object.  Objects are association lists; lookup takes the first
binding of a key, matching map lookup on the duplicate-free maps
`serde_json` produces. -/
inductive Json where
  | null
  | bool (b : Bool)
  | num (q : ℚ)
  | str (s : String)
  | arr (elems : List Json)
  | obj (fields : List (String × Json))
  deriving Repr

namespace Json

/-- `Value::as_object`. -/
def as_object : Json → Option (List (String × Json))
  | .obj fields => some fields
  | _ => none

/-- `Map::get`: look a key up in an object's field list. -/
def getKey (fields : List (String × Json)) (k : String) : Option Json :=
  (fields.find? (fun p => p.1 = k)).map Prod.snd

/-- `Value::as_array`. -/
def as_array : Json → Option (List Json)
  | .arr elems => some elems
  | _ => none

/-- `Value::as_str`. -/
def as_str : Json → Option String
  | .str s => some s
  | _ => none

end Json

/-- Modelled from the spec: the fixed language-substitution marker token
`LANGUAGE_URL_MARKER` lives in the crate root (`lib.rs`), outside the
sources at hand; the spec names it as the marker token `\x7blanguage\x7d`. -/
def LANGUAGE_URL_MARKER : Str := "\x7blanguage\x7d".toList

/-- `str::find(pat)`: byte index of the first occurrence of `pat`, here at
character granularity (`none` when there is no occurrence; an empty pattern
is found at index 0, as in Rust). -/
def findSub : Str → Str → Option Nat
  | [], pat => if pat.isPrefixOf [] then some 0 else none
  | c :: t, pat =>
      if pat.isPrefixOf (c :: t) then some 0
      else (findSub t pat).map (· + 1)

/-- The client state (`struct Wikipedia<A>`), parametric in the HTTP client
type `A`.  `search_results` is a `u32`, modelled as `Nat`. -/
structure Wikipedia (A : Type) where
  client : A
  pre_language_url : Str
  post_language_url : Str
  language : Str
  search_results : Nat
  images_results : String
  links_results : String
  categories_results : String
  deriving Repr

/-- `Wikipedia::new`: provided client plus default configuration. -/
def new {A : Type} (client : A) : Wikipedia A where
  client := client
  pre_language_url := "https://".toList
  post_language_url := ".wikipedia.org/w/api.php".toList
  language := "en".toList
  search_results := 10
  images_results := "max"
  links_results := "max"
  categories_results := "max"

/-- `Wikipedia::base_url`: `format!("\x7b\x7d\x7b\x7d\x7b\x7d", pre_language_url,
language, post_language_url)`. -/
def base_url {A : Type} (w : Wikipedia A) : Str :=
  w.pre_language_url ++ w.language ++ w.post_language_url

/-- `Wikipedia::set_base_url`: split the input around the first occurrence
of `LANGUAGE_URL_MARKER`; if the marker is absent, store the whole input as
the prefix and clear `language` and the suffix. -/
def set_base_url {A : Type} (w : Wikipedia A) (url : Str) : Wikipedia A :=
  match findSub url LANGUAGE_URL_MARKER with
  | none =>
      { w with
        pre_language_url := url
        language := []
        post_language_url := [] }
  | some index =>
      { w with
        pre_language_url := url.take index
        post_language_url := url.drop (index + LANGUAGE_URL_MARKER.length) }

/-- The transport capability (`AsyncHttpClient::get`): base URL and ordered
parameter pairs in, raw response text or an error out. -/
abbrev Transport := Str → List (String × String) → Except Error String

/-- JSON parsing (`serde_json::from_str`): `none` on invalid JSON. -/
abbrev Parser := String → Option Json

/-- A record of one transport invocation: the base URL and the parameter
pairs passed to `get`. -/
abbrev Invocation := Str × List (String × String)

/-- `Wikipedia::query`: render the endpoint, call the transport, parse the
body as JSON (`DecodeError` on parse failure).  Returns the outcome
together with the transport invocations performed (always exactly one). -/
def query {A : Type} (w : Wikipedia A) (t : Transport) (p : Parser)
    (args : List (String × String)) : Except Error Json × List Invocation :=
  let inv : List Invocation := [(base_url w, args)]
  match t (base_url w) args with
  | .error e => (.error e, inv)
  | .ok body =>
      match p body with
      | none => (.error .DecodeError, inv)
      | some j => (.ok j, inv)

/-- The envelope walk of `Wikipedia::results`:
`as_object → get "query" → as_object → get query_field → as_array`. -/
def path_to_array (data : Json) (query_field : String) : Option (List Json) :=
  data.as_object.bind (fun o => Json.getKey o "query")
    |>.bind Json.as_object
    |>.bind (fun o => Json.getKey o query_field)
    |>.bind Json.as_array

/-- The per-element map of `Wikipedia::results`:
`as_object → get "title" → as_str`. -/
def extract_title (i : Json) : Option String :=
  i.as_object.bind (fun o => Json.getKey o "title") |>.bind Json.as_str

/-- `Wikipedia::results`: walk `query.<query_field>` down to an array
(`JSONPathError` if the envelope is not shaped that way), then keep, in
order, the string `title` fields of those elements that are objects with
one (`filter_map`). -/
def results (data : Json) (query_field : String) : Except Error (List String) :=
  match path_to_array data query_field with
  | none => .error .JSONPathError
  | some elems => .ok (elems.filterMap extract_title)

/-- The parameter list the `search` builder assembles. -/
def search_args {A : Type} (w : Wikipedia A) (q : String) :
    List (String × String) :=
  [("list", "search"),
   ("srprop", ""),
   ("srlimit", toString w.search_results),
   ("srsearch", q),
   ("format", "json"),
   ("action", "query")]

/-- `Wikipedia::search`: query with the search parameters (the `?` operator
propagating any error), then extract the `search` titles. -/
def search {A : Type} (w : Wikipedia A) (t : Transport) (p : Parser)
    (q : String) : Except Error (List String) × List Invocation :=
  let r := query w t p (search_args w q)
  (r.1.bind (fun data => results data "search"), r.2)

/-- The parameter list the `geosearch` builder assembles
(`gscoord=<lat>|<lon>`; rational coordinates rendered with `toString`,
standing in for `f64` display). -/
def geosearch_args {A : Type} (w : Wikipedia A) (latitude longitude : ℚ)
    (radius : Nat) : List (String × String) :=
  [("list", "geosearch"),
   ("gsradius", toString radius),
   ("gscoord", toString latitude ++ "|" ++ toString longitude),
   ("gslimit", toString w.search_results),
   ("format", "json"),
   ("action", "query")]

/-- `Wikipedia::geosearch`: validate latitude, longitude and radius in that
order (inclusive bounds, `InvalidParameter` naming the failed parameter,
no transport invocation); then query and extract the `geosearch` titles.
Coordinates are `f64` in the source, modelled as `ℚ` (the bounds are exact
in `f64`, and `f64` order comparison agrees with rational order on the
represented values). `radius` is a `u16`, modelled as `Nat`. -/
def geosearch {A : Type} (w : Wikipedia A) (t : Transport) (p : Parser)
    (latitude longitude : ℚ) (radius : Nat) :
    Except Error (List String) × List Invocation :=
  if ¬(-90 ≤ latitude ∧ latitude ≤ 90) then
    (.error (.InvalidParameter "latitude"), [])
  else if ¬(-180 ≤ longitude ∧ longitude ≤ 180) then
    (.error (.InvalidParameter "longitude"), [])
  else if ¬(10 ≤ radius ∧ radius ≤ 10000) then
    (.error (.InvalidParameter "radius"), [])
  else
    let r := query w t p (geosearch_args w latitude longitude radius)
    (r.1.bind (fun data => results data "geosearch"), r.2)

/-- The parameter list the `random_count` builder assembles. -/
def random_count_args (count : Nat) : List (String × String) :=
  [("list", "random"),
   ("rnnamespace", "0"),
   ("rnlimit", toString count),
   ("format", "json"),
   ("action", "query")]

/-- `Wikipedia::random_count`: query with the random parameters, then
extract the `random` titles.  `count` is a `u8`, modelled as `Nat`. -/
def random_count {A : Type} (w : Wikipedia A) (t : Transport) (p : Parser)
    (count : Nat) : Except Error (List String) × List Invocation :=
  let r := query w t p (random_count_args count)
  (r.1.bind (fun data => results data "random"), r.2)

/-- `Wikipedia::random`: `random_count(1)?` and the first element, or none
(`into_iter().next()`). -/
def random {A : Type} (w : Wikipedia A) (t : Transport) (p : Parser) :
    Except Error (Option String) × List Invocation :=
  let r := random_count w t p 1
  (r.1.map List.head?, r.2)

/-- Applying a sequence of `set_base_url` calls to a client state, first
call first. -/
def apply_set_base_urls {A : Type} (w : Wikipedia A) (urls : List Str) :
    Wikipedia A :=
  urls.foldl set_base_url w

/-- Sample document of the spec:
`(query (search [(title "A"), (no_title 1), (title "B")]))`. -/
def sample_search_doc : Json :=
  .obj [("query", .obj [("search", .arr
    [.obj [("title", .str "A")],
     .obj [("no_title", .num 1)],
     .obj [("title", .str "B")]])])]

/-- Sample document of the spec: `(query ())`, an empty `query` object. -/
def sample_empty_query_doc : Json :=
  .obj [("query", .obj [])]

/-- Sample random-list response holding the single title `"X"`. -/
def sample_random_doc_X : Json :=
  .obj [("query", .obj [("random", .arr [.obj [("title", .str "X")]])])]

/-- Sample random-list response holding no titles. -/
def sample_random_doc_empty : Json :=
  .obj [("query", .obj [("random", .arr [])])]

/-- A raw endpoint URL with no language-substitution marker. -/
def raw_url : Str := "https://x.example/api".toList

/-- An endpoint template containing the language-substitution marker. -/
def marker_url : Str := "https://\x7blanguage\x7d.wikipedia.org/w/api.php".toList

/-- A transport that always hands back the fixed body `"resp"`. -/
def const_transport : Transport := fun _ _ => .ok "resp"

/-!
Theorems.  First, helper lemmas about the pipeline.
-/

/-- Every `query` performs exactly one transport invocation, with the
rendered base URL and the given parameter list. -/
theorem query_snd {A : Type} (w : Wikipedia A) (t : Transport) (p : Parser)
    (args : List (String × String)) :
    (query w t p args).2 = [(base_url w, args)] := by
  cases ht : t (base_url w) args with
  | error e => simp [query, ht]
  | ok body => cases hp : p body <;> simp [query, ht, hp]

/-- A transport success whose body fails to parse makes `query` fail with
`DecodeError`. -/
theorem query_decode_error {A : Type} (w : Wikipedia A) (t : Transport)
    (p : Parser) (args : List (String × String)) (body : String)
    (ht : t (base_url w) args = .ok body) (hp : p body = none) :
    (query w t p args).1 = .error .DecodeError := by
  simp [query, ht, hp]

/-- A transport success whose body parses to `j` makes `query` succeed
with `j`. -/
theorem query_ok {A : Type} (w : Wikipedia A) (t : Transport)
    (p : Parser) (args : List (String × String)) (body : String) (j : Json)
    (ht : t (base_url w) args = .ok body) (hp : p body = some j) :
    (query w t p args).1 = .ok j := by
  simp [query, ht, hp]

/-- A pattern that is a prefix of `s` is found at index 0. -/
theorem findSub_of_isPrefixOf (s pat : Str) (h : pat.isPrefixOf s = true) :
    findSub s pat = some 0 := by
  cases s <;> simp [findSub, h]

/-- A pattern not found in `c :: t` is not a prefix of it and is not found
in `t` either. -/
theorem findSub_cons_none {c : Char} {t pat : Str}
    (h : findSub (c :: t) pat = none) :
    pat.isPrefixOf (c :: t) = false ∧ findSub t pat = none := by
  by_cases hp : pat.isPrefixOf (c :: t) <;>
    simp [findSub, hp] at h ⊢
  exact h

/-- The marker character `\x7b` occurs in the marker token only at
index 0. -/
theorem marker_head_unique :
    ∀ i, i < LANGUAGE_URL_MARKER.length → 0 < i →
      LANGUAGE_URL_MARKER[i]? ≠ some '\x7b' := by
  decide

/-- A string whose prefix `p` is nonempty and marker-free cannot itself
start with the marker when the marker follows `p` immediately: the marker
token has no nontrivial border (its first character occurs in it only
once), so an occurrence cannot straddle the boundary. -/
theorem marker_not_prefix_of_append (p s : Str) (hne : p ≠ [])
    (hp : findSub p LANGUAGE_URL_MARKER = none) :
    LANGUAGE_URL_MARKER.isPrefixOf (p ++ LANGUAGE_URL_MARKER ++ s)
      = false := by
  by_contra hcon
  rw [Bool.not_eq_false, List.isPrefixOf_iff_prefix] at hcon
  rw [List.append_assoc] at hcon
  rcases le_or_lt LANGUAGE_URL_MARKER.length p.length with hlen | hlen
  · have htake : LANGUAGE_URL_MARKER =
        List.take LANGUAGE_URL_MARKER.length p := by
      have := List.prefix_iff_eq_take.1 hcon
      rwa [List.take_append_of_le_length hlen] at this
    have hpre : LANGUAGE_URL_MARKER.isPrefixOf p = true := by
      rw [List.isPrefixOf_iff_prefix, htake]
      exact List.take_prefix _ _
    rw [findSub_of_isPrefixOf p LANGUAGE_URL_MARKER hpre] at hp
    exact Option.noConfusion hp
  · obtain ⟨r, hr⟩ := hcon
    have h1 : (p ++ (LANGUAGE_URL_MARKER ++ s))[p.length]? =
        LANGUAGE_URL_MARKER[p.length]? := by
      rw [← hr, List.getElem?_append, if_pos hlen]
    have h2 : (p ++ (LANGUAGE_URL_MARKER ++ s))[p.length]? =
        some '\x7b' := by
      rw [List.getElem?_append_right (le_refl p.length), Nat.sub_self]
      rfl
    exact marker_head_unique p.length hlen
      (List.length_pos.2 hne) (h1.symm.trans h2)

/-- In `p ++ marker ++ s` with `p` marker-free, the first occurrence of the
marker is exactly at index `p.length`. -/
theorem findSub_append_marker (p s : Str)
    (hp : findSub p LANGUAGE_URL_MARKER = none) :
    findSub (p ++ LANGUAGE_URL_MARKER ++ s) LANGUAGE_URL_MARKER
      = some p.length := by
  induction p with
  | nil =>
    simp only [List.nil_append, List.length_nil]
    exact findSub_of_isPrefixOf _ _
      (List.isPrefixOf_iff_prefix.2 (List.prefix_append _ _))
  | cons c p' ih =>
    obtain ⟨hpf, hp'⟩ := findSub_cons_none hp
    have hpre := marker_not_prefix_of_append (c :: p') s (by simp) hp
    have heq : (c :: p') ++ LANGUAGE_URL_MARKER ++ s
        = c :: (p' ++ LANGUAGE_URL_MARKER ++ s) := by simp
    rw [heq] at hpre ⊢
    simp only [findSub, hpre, Bool.false_eq_true, if_false, List.length_cons]
    rw [ih hp']
    rfl

/-- When the marker is found at index `i`, `set_base_url` leaves the
language code untouched. -/
theorem set_base_url_language_of_marker {A : Type} (w : Wikipedia A)
    (u : Str) (i : Nat) (h : findSub u LANGUAGE_URL_MARKER = some i) :
    (set_base_url w u).language = w.language := by
  simp [set_base_url, h]

/-- A fold of `set_base_url` calls ends with an empty language code only
if it started with one or some call's argument was marker-free. -/
theorem language_empty_of_foldl {A : Type} (urls : List Str)
    (w : Wikipedia A) (h : (urls.foldl set_base_url w).language = []) :
    w.language = [] ∨
      ∃ u ∈ urls, findSub u LANGUAGE_URL_MARKER = none := by
  induction urls generalizing w with
  | nil => exact .inl h
  | cons u rest ih =>
    rcases ih (set_base_url w u) h with h' | ⟨v, hv, hm⟩
    · rcases hm2 : findSub u LANGUAGE_URL_MARKER with _ | i
      · exact .inr ⟨u, by simp, hm2⟩
      · exact .inl ((set_base_url_language_of_marker w u i hm2) ▸ h')
    · exact .inr ⟨v, by simp [hv], hm⟩

/-- C1: `geosearch` validates latitude, longitude and radius in that order
with inclusive bounds; the first violated constraint fails the call with
`InvalidParameter` naming that parameter and the transport is never
invoked; in-range arguments reach the transport in exactly one invocation
carrying the geosearch parameters. -/
theorem C1_geosearch_validation {A : Type} (w : Wikipedia A) (t : Transport)
    (p : Parser) (lat lon : ℚ) (radius : Nat) :
    (¬(-90 ≤ lat ∧ lat ≤ 90) →
      geosearch w t p lat lon radius =
        (.error (.InvalidParameter "latitude"), [])) ∧
    ((-90 ≤ lat ∧ lat ≤ 90) → ¬(-180 ≤ lon ∧ lon ≤ 180) →
      geosearch w t p lat lon radius =
        (.error (.InvalidParameter "longitude"), [])) ∧
    ((-90 ≤ lat ∧ lat ≤ 90) → (-180 ≤ lon ∧ lon ≤ 180) →
        ¬(10 ≤ radius ∧ radius ≤ 10000) →
      geosearch w t p lat lon radius =
        (.error (.InvalidParameter "radius"), [])) ∧
    ((-90 ≤ lat ∧ lat ≤ 90) → (-180 ≤ lon ∧ lon ≤ 180) →
        (10 ≤ radius ∧ radius ≤ 10000) →
      (geosearch w t p lat lon radius).2 =
        [(base_url w, geosearch_args w lat lon radius)]) := by
  refine ⟨fun h1 => ?_, fun h1 h2 => ?_, fun h1 h2 h3 => ?_, fun h1 h2 h3 => ?_⟩
  · simp [geosearch, h1]
  · simp [geosearch, h1.1, h1.2, h2]
  · simp [geosearch, h1.1, h1.2, h2.1, h2.2, h3]
  · simp only [geosearch, h1.1, h1.2, h2.1, h2.2, h3.1, h3.2, and_self,
      not_true_eq_false, if_false]
    simpa using query_snd w t p (geosearch_args w lat lon radius)

/-- Witness for C1: each validation branch at the spec's boundary-adjacent
inputs, and the inclusive boundary `(90, 180, 10000)` passing validation
and invoking the transport once. -/
theorem C1_geosearch_validation_witness :
    geosearch (new ()) const_transport (fun _ => none) 91 0 100
      = (.error (.InvalidParameter "latitude"), []) ∧
    geosearch (new ()) const_transport (fun _ => none) 0 181 100
      = (.error (.InvalidParameter "longitude"), []) ∧
    geosearch (new ()) const_transport (fun _ => none) 0 0 9
      = (.error (.InvalidParameter "radius"), []) ∧
    (geosearch (new ()) const_transport (fun _ => none) 90 180 10000).2
      = [(base_url (new ()), geosearch_args (new ()) 90 180 10000)] :=
  ⟨(C1_geosearch_validation (new ()) const_transport (fun _ => none) 91 0 100).1
      (by decide),
   (C1_geosearch_validation (new ()) const_transport (fun _ => none) 0 181 100).2.1
      (by decide) (by decide),
   (C1_geosearch_validation (new ()) const_transport (fun _ => none) 0 0 9).2.2.1
      (by decide) (by decide) (by decide),
   (C1_geosearch_validation (new ()) const_transport (fun _ => none) 90 180 10000).2.2.2
      (by decide) (by decide) (by decide)⟩

/-- C2: whenever the envelope walk `query.<key>` reaches an array,
extraction succeeds and returns exactly the string `title` fields of the
object elements carrying one, in array order; every other element is
silently dropped. -/
theorem C2_lenient_extraction (data : Json) (key : String) (elems : List Json)
    (h : path_to_array data key = some elems) :
    results data key = .ok (elems.filterMap extract_title) := by
  simp [results, h]

/-- Witness for C2 at the spec's sample document: extraction yields exactly
`["A", "B"]`. -/
theorem C2_lenient_extraction_witness :
    path_to_array sample_search_doc "search" =
      some [.obj [("title", .str "A")],
            .obj [("no_title", .num 1)],
            .obj [("title", .str "B")]] ∧
    results sample_search_doc "search" = .ok ["A", "B"] :=
  ⟨rfl,
   (C2_lenient_extraction sample_search_doc "search"
      [.obj [("title", .str "A")],
       .obj [("no_title", .num 1)],
       .obj [("title", .str "B")]] rfl).trans rfl⟩

/-- C3: a response body that fails to parse fails the call with
`DecodeError`; a parsed document whose envelope walk for the result key
breaks at the macro level fails with `JSONPathError` (the spec's
`MissingPathError`); in both cases the call's result is that error, with
no partial result. -/
theorem C3_strict_envelope {A : Type} (w : Wikipedia A) (t : Transport)
    (p : Parser) (q : String) (body : String) (data : Json) (key : String) :
    (t (base_url w) (search_args w q) = .ok body → p body = none →
      (search w t p q).1 = .error .DecodeError) ∧
    (path_to_array data key = none →
      results data key = .error .JSONPathError) ∧
    (t (base_url w) (search_args w q) = .ok body → p body = some data →
        path_to_array data "search" = none →
      (search w t p q).1 = .error .JSONPathError) := by
  refine ⟨fun ht hp => ?_, fun h => ?_, fun ht hp hpath => ?_⟩
  · have h := query_decode_error w t p (search_args w q) body ht hp
    simp [search, h, Except.bind]
  · simp [results, h]
  · have h := query_ok w t p (search_args w q) body data ht hp
    simp [search, h, Except.bind, results, hpath]

/-- Witness for C3: the spec's empty-`query` document fails extraction with
`JSONPathError`, and an unparseable body fails `search` with
`DecodeError`. -/
theorem C3_strict_envelope_witness :
    results sample_empty_query_doc "search" = .error .JSONPathError ∧
    (search (new ()) const_transport (fun _ => none) "q").1
      = .error .DecodeError :=
  ⟨(C3_strict_envelope (new ()) const_transport (fun _ => none) "q" "resp"
      sample_empty_query_doc "search").2.1 rfl,
   (C3_strict_envelope (new ()) const_transport (fun _ => none) "q" "resp"
      sample_empty_query_doc "search").1 rfl rfl⟩

/-- C4: render is exactly the concatenation
prefix ++ languageCode ++ suffix. -/
theorem C4_base_url_concat {A : Type} (w : Wikipedia A) :
    base_url w = w.pre_language_url ++ w.language ++ w.post_language_url :=
  rfl

/-- C5: setting a marker-free raw URL stores it wholly in the prefix and
clears language and suffix, so a subsequent render returns exactly the raw
URL, whatever language was configured before. -/
theorem C5_set_raw_url {A : Type} (w : Wikipedia A) (url : Str)
    (h : findSub url LANGUAGE_URL_MARKER = none) :
    set_base_url w url =
      { w with
          pre_language_url := url
          language := []
          post_language_url := [] } ∧
    base_url (set_base_url w url) = url := by
  have h1 : set_base_url w url =
      { w with
          pre_language_url := url
          language := []
          post_language_url := [] } := by
    simp [set_base_url, h]
  exact ⟨h1, by simp [h1, base_url]⟩

/-- Witness for C5 at the spec's example URL
`https://x.example/api` against a freshly constructed client. -/
theorem C5_set_raw_url_witness :
    findSub raw_url LANGUAGE_URL_MARKER = none ∧
    base_url (set_base_url (new ()) raw_url) = raw_url :=
  ⟨rfl, (C5_set_raw_url (new ()) raw_url rfl).2⟩

/-- C7: `random` composes `random_count 1` with taking the head of the
returned title list: a success yields the head as an option with the same
transport invocations, and a failure is propagated unchanged. -/
theorem C7_random_composition {A : Type} (w : Wikipedia A) (t : Transport)
    (p : Parser) (titles : List String) (e : Error) (inv : List Invocation) :
    (random_count w t p 1 = (.ok titles, inv) →
      random w t p = (.ok titles.head?, inv)) ∧
    (random_count w t p 1 = (.error e, inv) →
      random w t p = (.error e, inv)) := by
  constructor <;> intro h <;> simp [random, h, Except.map]

/-- Witness for C7: a transport/parser returning the single random title
`"X"` makes `random` return `some "X"`; an empty random list makes it
return `none`. -/
theorem C7_random_composition_witness :
    random (new ()) const_transport (fun _ => some sample_random_doc_X)
      = (.ok (some "X"), [(base_url (new ()), random_count_args 1)]) ∧
    random (new ()) const_transport (fun _ => some sample_random_doc_empty)
      = (.ok none, [(base_url (new ()), random_count_args 1)]) :=
  ⟨(C7_random_composition (new ()) const_transport
      (fun _ => some sample_random_doc_X) ["X"] .NetworkError
      [(base_url (new ()), random_count_args 1)]).1 rfl,
   (C7_random_composition (new ()) const_transport
      (fun _ => some sample_random_doc_empty) [] .NetworkError
      [(base_url (new ()), random_count_args 1)]).1 rfl⟩

/-- C8: the search builder is pure and yields exactly the six pairs
`list=search`, `srprop=`, `srlimit=<configured limit>`, `srsearch=<text>`,
`format=json`, `action=query`, with pairwise distinct keys, and the search
pipeline passes exactly this list to the transport in its single
invocation. -/
theorem C8_search_builder {A : Type} (w : Wikipedia A) (t : Transport)
    (p : Parser) (q : String) :
    search_args w q =
      [("list", "search"), ("srprop", ""),
       ("srlimit", toString w.search_results), ("srsearch", q),
       ("format", "json"), ("action", "query")] ∧
    ((search_args w q).map Prod.fst).Nodup ∧
    (search w t p q).2 = [(base_url w, search_args w q)] := by
  refine ⟨rfl, by simp only [search_args, List.map]; decide, ?_⟩
  simpa [search] using query_snd w t p (search_args w q)

/-- C10: `set_base_url` only touches the URL-template fields: with a marker
present it rewrites the prefix and suffix around the first marker
occurrence and keeps every other field, language included; with no marker
it rewrites prefix, language and suffix and keeps every other field. -/
theorem C10_set_base_url_frame {A : Type} (w : Wikipedia A) (url : Str) :
    (∀ i, findSub url LANGUAGE_URL_MARKER = some i →
      set_base_url w url =
        { w with
            pre_language_url := url.take i
            post_language_url :=
              url.drop (i + LANGUAGE_URL_MARKER.length) }) ∧
    (findSub url LANGUAGE_URL_MARKER = none →
      set_base_url w url =
        { w with
            pre_language_url := url
            language := []
            post_language_url := [] }) := by
  refine ⟨fun i hi => ?_, fun h => ?_⟩
  · simp [set_base_url, hi]
  · simp [set_base_url, h]

/-- Witness for C10 on a fresh client: a marker template splits around the
marker at index 8; a raw URL replaces the three template fields. -/
theorem C10_set_base_url_frame_witness :
    set_base_url (new ()) marker_url =
      { new () with
          pre_language_url := marker_url.take 8
          post_language_url :=
            marker_url.drop (8 + LANGUAGE_URL_MARKER.length) } ∧
    set_base_url (new ()) raw_url =
      { new () with
          pre_language_url := raw_url
          language := []
          post_language_url := [] } :=
  ⟨(C10_set_base_url_frame (new ()) marker_url).1 8 rfl,
   (C10_set_base_url_frame (new ()) raw_url).2 rfl⟩

/-- C6: for a template of the form `p ++ marker ++ s` with `p` and `s`
marker-free, `set_base_url` followed by a render with the configured
language `lang` produces exactly `p ++ lang ++ s` — the template with the
marker replaced by the language code. -/
theorem C6_template_roundtrip {A : Type} (w : Wikipedia A) (p s : Str)
    (hp : findSub p LANGUAGE_URL_MARKER = none)
    (_hs : findSub s LANGUAGE_URL_MARKER = none) :
    base_url (set_base_url w (p ++ LANGUAGE_URL_MARKER ++ s))
      = p ++ w.language ++ s := by
  have hf : findSub (p ++ (LANGUAGE_URL_MARKER ++ s)) LANGUAGE_URL_MARKER
      = some p.length := by
    rw [← List.append_assoc]
    exact findSub_append_marker p s hp
  have ht : List.take p.length (p ++ (LANGUAGE_URL_MARKER ++ s)) = p :=
    List.take_left _ _
  have hd : List.drop (p.length + LANGUAGE_URL_MARKER.length)
      (p ++ (LANGUAGE_URL_MARKER ++ s)) = s := by
    rw [← List.length_append, ← List.append_assoc, List.drop_left]
  simp [set_base_url, hf, base_url, ht, hd]

/-- Witness for C6 at the default wikipedia template: prefix `https://`,
suffix `.wikipedia.org/w/api.php`, configured language `en`. -/
theorem C6_template_roundtrip_witness :
    base_url (set_base_url (new ())
        ("https://".toList ++ LANGUAGE_URL_MARKER
          ++ ".wikipedia.org/w/api.php".toList))
      = "https://".toList ++ "en".toList ++ ".wikipedia.org/w/api.php".toList :=
  C6_template_roundtrip (new ()) "https://".toList
    ".wikipedia.org/w/api.php".toList rfl rfl

/-- Counterexample to C9 as stated: after `set_base_url` with a marker-free
raw URL and then with a marker template, the reachable state has an empty
language code although the most recent call's argument contains the marker,
its prefix is not that argument and its suffix is nonempty. -/
theorem C9_counterexample :
    ¬((apply_set_base_urls (new ()) [raw_url, marker_url]).language = [] →
        findSub marker_url LANGUAGE_URL_MARKER = none ∧
        (apply_set_base_urls (new ())
            [raw_url, marker_url]).pre_language_url = marker_url ∧
        (apply_set_base_urls (new ())
            [raw_url, marker_url]).post_language_url = []) := by
  intro h
  exact absurd (h rfl) (by decide)

/-- C9 (amended): in every state reachable from a fresh client by a
sequence of `set_base_url` calls, the language code is empty only if some
call in the sequence was given a marker-free URL; immediately after such a
call the prefix holds that URL, the language code is empty and the suffix
is empty. -/
theorem C9_language_empty_invariant {A : Type} (c : A) (urls : List Str)
    (h : (apply_set_base_urls (new c) urls).language = []) :
    ∃ u ∈ urls, findSub u LANGUAGE_URL_MARKER = none ∧
      ∀ w' : Wikipedia A,
        (set_base_url w' u).pre_language_url = u ∧
        (set_base_url w' u).language = [] ∧
        (set_base_url w' u).post_language_url = [] := by
  rcases language_empty_of_foldl urls (new c) h with h' | ⟨u, hu, hm⟩
  · exact absurd h' (by simp [new])
  · exact ⟨u, hu, hm, fun w' => by simp [set_base_url, hm]⟩

/-- Witness for C9 (amended): a single marker-free call empties the
language code, and that call is the marker-free one. -/
theorem C9_language_empty_invariant_witness :
    ∃ u ∈ [raw_url], findSub u LANGUAGE_URL_MARKER = none ∧
      ∀ w' : Wikipedia Unit,
        (set_base_url w' u).pre_language_url = u ∧
        (set_base_url w' u).language = [] ∧
        (set_base_url w' u).post_language_url = [] :=
  C9_language_empty_invariant () [raw_url] rfl

end Wiki
